import Mathlib

/-!
Verification of the llvm-ir2vec embedding and triplet engine together with
its scripting binding layer (IR2Vec for portable LLVM IR, MIR2Vec for the
lowered machine IR).

The control flow of the binding layer is embedded from
`bindings/IR2Vec/ir2vec_bindings.cpp` and
`bindings/MIR2Vec/mir2vec_bindings.cpp`; the shared triplet and embedding
result types come from `IR2VecTool.h`.  Components whose implementation
lives outside these files (the triplet walk, the embedding aggregator, the
vocabulary table) are modelled from the specification and carry a doc
comment saying so.
-/

namespace IR2Vec

/-- Modelled from the spec: the RepresentationAdapter's view of one
instruction (spec.md section 4.3) — an opcode entity ID, the ordered operand
entity IDs, and an optional result-type entity ID. -/
structure Instruction where
  opcode : Nat
  operands : List Nat
  resultType : Option Nat
  deriving DecidableEq

/-- Modelled from the spec: a block is a labelled, program-ordered list of
instructions. -/
structure Block where
  label : String
  insts : List Instruction
  deriving DecidableEq

/-- Modelled from the spec: a function is a named, layout-ordered list of
blocks. -/
structure Func where
  name : String
  blocks : List Block
  deriving DecidableEq

/-- Modelled from the spec: a module is a list of (defined) functions. -/
structure Module where
  funcs : List Func
  deriving DecidableEq

/-- Relation types for triplet generation, from `IR2VecTool.h`. -/
inductive RelationType
  | TypeRelation
  | NextRelation
  | ArgRelation
  deriving DecidableEq

/-- The numeric value of each enumerator, as fixed in `IR2VecTool.h`
(`TypeRelation = 0, NextRelation = 1, ArgRelation = 2`). -/
def RelationType.toNat : RelationType → Nat
  | .TypeRelation => 0
  | .NextRelation => 1
  | .ArgRelation => 2

/-- Triplet for vocabulary training, from `IR2VecTool.h`. -/
structure Triplet where
  Head : Nat
  Tail : Nat
  Relation : Nat
  deriving DecidableEq

/-- Result of triplet generation, from `IR2VecTool.h`. -/
structure TripletResult where
  MaxRelation : Nat
  Triplets : List Triplet
  deriving DecidableEq

/-- Modelled from the spec: the triples one instruction `I` contributes
(spec.md section 4.5) — a `TypeOf` triple if `I` has a result type entity,
a `Next` triple to the opcode of the instruction immediately following `I`
in the same block when there is one, and an `ArgOf` triple for every
operand entity of `I`. -/
def instTriplets (I : Instruction) (nx : Option Instruction) : List Triplet :=
  (match I.resultType with
    | some T => [⟨I.opcode, T, RelationType.TypeRelation.toNat⟩]
    | none => []) ++
  (match nx with
    | some J => [⟨I.opcode, J.opcode, RelationType.NextRelation.toNat⟩]
    | none => []) ++
  I.operands.map (fun P => ⟨P, I.opcode, RelationType.ArgRelation.toNat⟩)

/-- Modelled from the spec: the walk over one block's instruction list in
program order; each instruction sees its successor inside the block, the
last one sees none, so `Next` never crosses a block boundary. -/
def blockInstTriplets : List Instruction → List Triplet
  | [] => []
  | [I] => instTriplets I none
  | I :: J :: rest => instTriplets I (some J) ++ blockInstTriplets (J :: rest)

/-- Modelled from the spec: all triples of one function — blocks in layout
order, instructions in program order. -/
def funcTriplets (f : Func) : List Triplet :=
  f.blocks.flatMap (fun b => blockInstTriplets b.insts)

/-- Modelled from the spec: all triples of a module — functions first, then
blocks, then instructions. -/
def moduleTriplets (m : Module) : List Triplet :=
  m.funcs.flatMap funcTriplets

/-- Modelled from the spec: `IR2VecTool::getTriplets()` for a whole module.
`MaxRelation` is the fixed upper bound of the relation-kind domain
(`ArgRelation = 2`), not the maximum observed in the walk. -/
def getTriplets (m : Module) : TripletResult :=
  { MaxRelation := RelationType.ArgRelation.toNat
    Triplets := moduleTriplets m }

/-- Modelled from the spec: `IR2VecTool::getTriplets(F)`, the same walk
scoped to a single function. -/
def getTripletsF (f : Func) : TripletResult :=
  { MaxRelation := RelationType.ArgRelation.toNat
    Triplets := funcTriplets f }

/-- Modelled from the spec: an Embedding is an ordered fixed-length vector
of numbers supporting elementwise addition and scalar scaling (spec.md
section 3); the numeric values are modelled as rationals. -/
abbrev Embedding := List ℚ

/-- Elementwise addition of two embeddings. -/
def eadd (a b : Embedding) : Embedding := List.zipWith (fun x y => x + y) a b

/-- Scalar scaling of an embedding. -/
def escale (c : ℚ) (a : Embedding) : Embedding := a.map (fun x => c * x)

/-- The zero embedding of a given dimension. -/
def zeroEmb (d : Nat) : Embedding := List.replicate d 0

/-- Modelled from the spec: the Vocabulary maps an entity ID to its vector
and declares the dimension; the canonical size is the table length
(spec.md section 4.2). -/
structure Vocabulary where
  dim : Nat
  table : List Embedding

/-- Entity lookup; out-of-range IDs give the zero vector of the declared
dimension. -/
def Vocabulary.lookup (V : Vocabulary) (i : Nat) : Embedding :=
  V.table.getD i (zeroEmb V.dim)

/-- A well-formed (fully initialized) vocabulary: every table row has the
declared dimension. -/
def Vocabulary.wf (V : Vocabulary) : Prop :=
  ∀ e ∈ V.table, e.length = V.dim

/-- Modelled from the spec: the fixed structural weights of symbolic-mode
composition — one for the opcode, one for the result type, one for each
operand (spec.md section 4.4). -/
structure Weights where
  wo : ℚ
  wt : ℚ
  wa : ℚ

/-- Modelled from the spec: symbolic-mode instruction embedding — the
weighted opcode vector, plus the weighted result-type vector when there is
one, plus the weighted vector of every operand entity. -/
def embedInstruction (V : Vocabulary) (W : Weights) (I : Instruction) : Embedding :=
  let base := escale W.wo (V.lookup I.opcode)
  let withType :=
    match I.resultType with
    | some T => eadd base (escale W.wt (V.lookup T))
    | none => base
  I.operands.foldl (fun acc P => eadd acc (escale W.wa (V.lookup P))) withType

/-- Modelled from the spec: a block embedding is the structural sum of its
instructions' embeddings. -/
def embedBlock (V : Vocabulary) (W : Weights) (b : Block) : Embedding :=
  b.insts.foldl (fun acc I => eadd acc (embedInstruction V W I)) (zeroEmb V.dim)

/-- Modelled from the spec: a function embedding is the structural sum of
its blocks' embeddings. -/
def embedFunction (V : Vocabulary) (W : Weights) (f : Func) : Embedding :=
  f.blocks.foldl (fun acc b => eadd acc (embedBlock V W b)) (zeroEmb V.dim)

/-- Modelled from the spec: `getMBBEmbeddings` — (label, embedding) pairs of
one function's blocks in layout order. -/
def getMBBEmbeddings (V : Vocabulary) (W : Weights) (f : Func) :
    List (String × Embedding) :=
  f.blocks.map (fun b => (b.label, embedBlock V W b))

/-- Modelled from the spec: `getMInstEmbeddings` — (key, embedding) pairs of
one function's instructions in program order; the printed instruction key is
modelled by the opcode entity ID rendered as a string. -/
def getMInstEmbeddings (V : Vocabulary) (W : Weights) (f : Func) :
    List (String × Embedding) :=
  (f.blocks.flatMap (fun b => b.insts)).map
    (fun I => (toString I.opcode, embedInstruction V W I))

/-- Modelled from the spec: `getFunctionEmbeddings` — display name to
(linkage name, embedding); name demangling is modelled as the identity. -/
def getFunctionEmbeddings (V : Vocabulary) (W : Weights) (m : Module) :
    List (String × String × Embedding) :=
  m.funcs.map (fun f => (f.name, f.name, embedFunction V W f))

/-- The failures the binding layer can raise, one constructor per distinct
`throw std::runtime_error(...)` site of the two binding files; the
function-name-carrying failures keep the offending name. -/
inductive Err
  | InvalidFilePath
  | InvalidMode (msg : String)
  | ParseFailed
  | EmptyVocabPath
  | VocabInitFailed
  | MIRContextSetupFailed
  | NotImplemented
  | FunctionNotFound (name : String)
  | NoMachineFunction (name : String)
  deriving DecidableEq

/-- The error taxonomy of spec.md section 7. -/
inductive ErrCategory
  | InputError
  | ConfigurationError
  | StateError
  | UnsupportedCapability
  deriving DecidableEq

/-- Which taxonomy class each concrete failure belongs to (spec.md
section 7). -/
def Err.category : Err → ErrCategory
  | .InvalidFilePath => .InputError
  | .InvalidMode _ => .ConfigurationError
  | .ParseFailed => .InputError
  | .EmptyVocabPath => .ConfigurationError
  | .VocabInitFailed => .ConfigurationError
  | .MIRContextSetupFailed => .InputError
  | .NotImplemented => .UnsupportedCapability
  | .FunctionNotFound _ => .InputError
  | .NoMachineFunction _ => .InputError

/-- The message text of each failure, as thrown by the binding code. -/
def errMessage : Err → String
  | .InvalidFilePath => "Invalid file path"
  | .InvalidMode msg => msg
  | .ParseFailed => "Failed to parse IR file."
  | .EmptyVocabPath => "Error - Empty Vocab Path not allowed"
  | .VocabInitFailed => "Failed to initialize vocabulary"
  | .MIRContextSetupFailed => "Failed to setup MIR context"
  | .NotImplemented => "Function Not Implemented"
  | .FunctionNotFound name => "Function not found or is a declaration: " ++ name
  | .NoMachineFunction name => "No MachineFunction found for: " ++ name

/-- Whether an `Except` result is a failure. -/
def isErr {ε α : Type} : Except ε α → Bool
  | .error _ => true
  | .ok _ => false

/-- The process-wide mutable configuration the two binding layers share:
the vocabulary file path of each variant (`setIR2VecVocabPath` and
`setMIR2VecVocabPath` write it, the next full initialization reads it). -/
structure GlobalState where
  irVocabPath : String
  mirVocabPath : String
  deriving DecidableEq

/-- Modelled from the spec: `setIR2VecVocabPath` overwrites the process-wide
portable-IR vocabulary path. -/
def setIR2VecVocabPath (g : GlobalState) (p : String) : GlobalState :=
  { g with irVocabPath := p }

/-- Modelled from the spec: `setMIR2VecVocabPath` overwrites the
process-wide lowered-IR vocabulary path. -/
def setMIR2VecVocabPath (g : GlobalState) (p : String) : GlobalState :=
  { g with mirVocabPath := p }

/-- The externally observable steps the portable-IR session constructor
performs, in order, before it either returns or throws. -/
inductive Event
  | parseModule
  | createTool
  | setVocabPathEv (p : String)
  | initVocabularyEv
  deriving DecidableEq

/-- The outcomes of the external collaborators the portable-IR binding
consults: file readability, IR parsing, and full vocabulary initialization
as a function of the process-wide path it reads. -/
structure IREnv where
  fileValid : String → Bool
  parseOk : String → Bool
  vocabInitOk : String → Bool

/-- The portable-IR session constructor `PyIR2VecTool::PyIR2VecTool` from
`ir2vec_bindings.cpp`: check the file, check the mode (`sym` and `fa` both
pass the check), parse the module, build the tool, reject an empty
vocabulary override, set the process-wide path, then run full vocabulary
initialization.  Returns the outcome, the global state after the call, and
the trace of steps performed before returning. -/
def pyIR2VecToolInit (env : IREnv) (g : GlobalState)
    (filename mode vocabOverride : String) :
    Except Err Unit × GlobalState × List Event :=
  if env.fileValid filename = false then
    (.error .InvalidFilePath, g, [])
  else if mode ≠ "sym" ∧ mode ≠ "fa" then
    (.error (.InvalidMode "Invalid mode. Use sym or fa"), g, [])
  else if env.parseOk filename = false then
    (.error .ParseFailed, g, [.parseModule])
  else if vocabOverride = "" then
    (.error .EmptyVocabPath, g, [.parseModule, .createTool])
  else
    let g1 := setIR2VecVocabPath g vocabOverride
    if env.vocabInitOk g1.irVocabPath then
      (.ok (), g1,
        [.parseModule, .createTool, .setVocabPathEv vocabOverride, .initVocabularyEv])
    else
      (.error .VocabInitFailed, g1,
        [.parseModule, .createTool, .setVocabPathEv vocabOverride, .initVocabularyEv])

/-- The default of the `vocab_override` argument of the module-level
`initEmbedding` entry point of `py_ir2vec` (`py::arg("vocab_override") = ""`). -/
def initEmbeddingDefaultVocab : String := ""

/-- Whether an event is vocabulary/embedding work (setting the vocabulary
path or running vocabulary initialization). -/
def Event.isVocabWork : Event → Bool
  | .setVocabPathEv _ => true
  | .initVocabularyEv => true
  | _ => false

/-- The outcomes of the external collaborators the lowered-IR (MIR2Vec)
binding consults: file readability, machine-context setup, layout-level and
full vocabulary initialization, the loaded module, the function table
(`some b` when the function is present, `b` telling whether it is a bodyless
declaration), the machine-function store, and the loaded vocabulary with its
composition weights. -/
structure MIREnv where
  fileValid : String → Bool
  setupOk : String → Bool
  layoutInitOk : Bool
  fullInitOk : String → Bool
  entityNames : List String
  mirModule : Module
  getFunction : String → Option Bool
  machineFunc : String → Option Func
  vocab : Vocabulary
  weights : Weights

/-- The state a `PyMIR2VecTool` instance holds: the requested mode and the
`VocabInitialized` flag (which no method of the binding file ever sets). -/
structure PyMIR2VecTool where
  mode : String
  vocabInitialized : Bool
  deriving DecidableEq

/-- The lowered-IR session constructor `PyMIR2VecTool::PyMIR2VecTool` from
`mir2vec_bindings.cpp`: check the file, accept only mode `sym` (the `fa`
alternative is commented out in the source), then set up the MIR context. -/
def pyMIR2VecToolInit (env : MIREnv) (filename mode : String) :
    Except Err PyMIR2VecTool :=
  if env.fileValid filename = false then
    .error .InvalidFilePath
  else if mode ≠ "sym" then
    .error (.InvalidMode "Invalid mode. Only sym mode supported.")
  else if env.setupOk filename = false then
    .error .MIRContextSetupFailed
  else
    .ok { mode := mode, vocabInitialized := false }

/-- `PyMIR2VecTool::getEntityMappings`: layout-level initialization, then
the entity name list. -/
def PyMIR2VecTool.getEntityMappings (env : MIREnv) (t : PyMIR2VecTool) :
    Except Err (List String) :=
  if env.layoutInitOk = false then .error .VocabInitFailed
  else .ok env.entityNames

/-- `PyMIR2VecTool::generateTriplets`: layout-level initialization, then the
triplet walk over the loaded module. -/
def PyMIR2VecTool.generateTriplets (env : MIREnv) (t : PyMIR2VecTool) :
    Except Err TripletResult :=
  if env.layoutInitOk = false then .error .VocabInitFailed
  else .ok (getTriplets env.mirModule)

/-- `PyMIR2VecTool::initializeMIR2VecVocabularyForEmb`: set the
process-wide vocabulary path to the given one, then run full
initialization, which reads the path just set. -/
def initializeMIR2VecVocabularyForEmb (env : MIREnv) (g : GlobalState)
    (vocabPath : String) : Except Err Unit × GlobalState :=
  let g1 := setMIR2VecVocabPath g vocabPath
  if env.fullInitOk g1.mirVocabPath = false then (.error .VocabInitFailed, g1)
  else (.ok (), g1)

/-- `PyMIR2VecTool::getMachineFunction`: fail naming the function when it is
absent or a bodyless declaration, fail naming it when it has no lowered
machine function, succeed otherwise. -/
def getMachineFunction (env : MIREnv) (name : String) : Except Err Func :=
  match env.getFunction name with
  | none => .error (.FunctionNotFound name)
  | some true => .error (.FunctionNotFound name)
  | some false =>
    match env.machineFunc name with
    | none => .error (.NoMachineFunction name)
    | some mf => .ok mf

/-- The code of the `PyMIR2VecTool::generateEmbeddings` template that
follows its opening throw (dead in the source): initialize the vocabulary
for embeddings, look the function up, and apply the supplied per-function
extraction. -/
def generateEmbeddingsBody (env : MIREnv) (g : GlobalState)
    (functionName vocabPath : String)
    (getEmbeddingsFn : Func → List (String × Embedding)) :
    Except Err (List (String × Embedding)) × GlobalState :=
  match initializeMIR2VecVocabularyForEmb env g vocabPath with
  | (.error e, g1) => (.error e, g1)
  | (.ok _, g1) =>
    match getMachineFunction env functionName with
    | .error e => (.error e, g1)
    | .ok mf => (.ok (getEmbeddingsFn mf), g1)

/-- The `PyMIR2VecTool::generateEmbeddings` template: its first statement is
`throw std::runtime_error("Function Not Implemented")`, so the body never
runs and the global state never changes. -/
def PyMIR2VecTool.generateEmbeddings (env : MIREnv) (g : GlobalState)
    (t : PyMIR2VecTool) (functionName vocabPath : String)
    (getEmbeddingsFn : Func → List (String × Embedding)) :
    Except Err (List (String × Embedding)) × GlobalState :=
  match (Except.error Err.NotImplemented : Except Err Unit) with
  | .error e => (.error e, g)
  | .ok _ => generateEmbeddingsBody env g functionName vocabPath getEmbeddingsFn

/-- The code of `PyMIR2VecTool::getFuncVectorMap` that follows its opening
throw (dead in the source). -/
def getFuncVectorMapBody (env : MIREnv) (g : GlobalState) (vocabPath : String) :
    Except Err (List (String × String × Embedding)) × GlobalState :=
  match initializeMIR2VecVocabularyForEmb env g vocabPath with
  | (.error e, g1) => (.error e, g1)
  | (.ok _, g1) => (.ok (getFunctionEmbeddings env.vocab env.weights env.mirModule), g1)

/-- `PyMIR2VecTool::getFuncVectorMap`: its first statement is
`throw std::runtime_error("Function Not Implemented")`. -/
def PyMIR2VecTool.getFuncVectorMap (env : MIREnv) (g : GlobalState)
    (t : PyMIR2VecTool) (vocabPath : String) :
    Except Err (List (String × String × Embedding)) × GlobalState :=
  match (Except.error Err.NotImplemented : Except Err Unit) with
  | .error e => (.error e, g)
  | .ok _ => getFuncVectorMapBody env g vocabPath

/-- `PyMIR2VecTool::generateMBBEmbeddings`: the template instantiated with
block-level extraction. -/
def PyMIR2VecTool.generateMBBEmbeddings (env : MIREnv) (g : GlobalState)
    (t : PyMIR2VecTool) (functionName vocabPath : String) :
    Except Err (List (String × Embedding)) × GlobalState :=
  PyMIR2VecTool.generateEmbeddings env g t functionName vocabPath
    (getMBBEmbeddings env.vocab env.weights)

/-- `PyMIR2VecTool::generateMInstEmbeddings`: the template instantiated with
instruction-level extraction. -/
def PyMIR2VecTool.generateMInstEmbeddings (env : MIREnv) (g : GlobalState)
    (t : PyMIR2VecTool) (functionName vocabPath : String) :
    Except Err (List (String × Embedding)) × GlobalState :=
  PyMIR2VecTool.generateEmbeddings env g t functionName vocabPath
    (getMInstEmbeddings env.vocab env.weights)

/-- Concrete instruction `add %1, %2` of the spec's worked scenario: opcode
entity 10, operand entities 1 and 2, result-type entity 5. -/
def sampleAdd : Instruction := ⟨10, [1, 2], some 5⟩

/-- Concrete instruction `ret %1`: opcode entity 11, operand entity 1, no
result type. -/
def sampleRet : Instruction := ⟨11, [1], none⟩

/-- A block holding the two sample instructions in program order. -/
def sampleEntryBlock : Block := ⟨"entry", [sampleAdd, sampleRet]⟩

/-- A second block, so block-boundary behaviour can be exercised. -/
def sampleExitBlock : Block := ⟨"exit", [sampleRet]⟩

/-- A two-block function. -/
def sampleFunc : Func := ⟨"f", [sampleEntryBlock, sampleExitBlock]⟩

/-- The same function with its two blocks in the opposite layout order. -/
def sampleFuncSwapped : Func := ⟨"f", [sampleExitBlock, sampleEntryBlock]⟩

/-- A one-function module over the sample function. -/
def sampleModule : Module := ⟨[sampleFunc]⟩

/-- A module in which no instruction has any operand, so the triplet walk
emits no `ArgOf` triple at all. -/
def noOperandModule : Module :=
  ⟨[⟨"f", [⟨"entry", [⟨10, [], some 5⟩, ⟨11, [], none⟩]⟩]⟩]⟩

/-- A concrete two-dimensional vocabulary table. -/
def sampleVocab : Vocabulary := ⟨2, [[1, 0], [0, 1], [1, 1], [2, 0], [0, 2]]⟩

/-- Concrete structural weights for symbolic-mode composition. -/
def sampleWeights : Weights := ⟨1, 1 / 2, 1 / 5⟩

/-- The process-wide configuration before any path has been set. -/
def g0 : GlobalState := ⟨"", ""⟩

/-- A lowered-representation session handle in its post-construction state. -/
def t0 : PyMIR2VecTool := ⟨"sym", false⟩

/-- A portable-IR environment in which every external collaborator
succeeds. -/
def sampleIREnv : IREnv := ⟨fun _ => true, fun _ => true, fun _ => true⟩

/-- A lowered-IR environment in which every external collaborator succeeds
and the module holds exactly the sample function `f`. -/
def sampleMIREnv : MIREnv :=
  { fileValid := fun _ => true
    setupOk := fun _ => true
    layoutInitOk := true
    fullInitOk := fun _ => true
    entityNames := ["OPC_A", "OPC_B"]
    mirModule := sampleModule
    getFunction := fun n => if n = "f" then some false else none
    machineFunc := fun n => if n = "f" then some sampleFunc else none
    vocab := sampleVocab
    weights := sampleWeights }

/-- A triple of relation kind `Next` contributed by one instruction always
points at the instruction's in-block successor: its head is the opcode of
the contributing instruction and its tail the successor's opcode. -/
theorem relation_one_of_mem_instTriplets {I : Instruction} {nx : Option Instruction}
    {t : Triplet} (ht : t ∈ instTriplets I nx) (hr : t.Relation = 1) :
    ∃ J, nx = some J ∧ t.Head = I.opcode ∧ t.Tail = J.opcode := by
  rcases List.mem_append.mp ht with hAB | hC
  · rcases List.mem_append.mp hAB with hA | hB
    · exfalso
      cases hres : I.resultType with
      | none => rw [hres] at hA; simp at hA
      | some T =>
        rw [hres] at hA
        simp only [List.mem_singleton] at hA
        rw [hA] at hr
        simp [RelationType.toNat] at hr
    · cases hnx : nx with
      | none => rw [hnx] at hB; simp at hB
      | some J =>
        rw [hnx] at hB
        simp only [List.mem_singleton] at hB
        exact ⟨J, rfl, by rw [hB], by rw [hB]⟩
  · exfalso
    rcases List.mem_map.mp hC with ⟨P, _, hPt⟩
    rw [← hPt] at hr
    simp [RelationType.toNat] at hr

/-- A triple of relation kind `ArgOf` contributed by one instruction has an
operand of that instruction as its head. -/
theorem relation_two_of_mem_instTriplets {I : Instruction} {nx : Option Instruction}
    {t : Triplet} (ht : t ∈ instTriplets I nx) (hr : t.Relation = 2) :
    t.Head ∈ I.operands := by
  rcases List.mem_append.mp ht with hAB | hC
  · exfalso
    rcases List.mem_append.mp hAB with hA | hB
    · cases hres : I.resultType with
      | none => rw [hres] at hA; simp at hA
      | some T =>
        rw [hres] at hA
        simp only [List.mem_singleton] at hA
        rw [hA] at hr
        simp [RelationType.toNat] at hr
    · cases hnx : nx with
      | none => rw [hnx] at hB; simp at hB
      | some J =>
        rw [hnx] at hB
        simp only [List.mem_singleton] at hB
        rw [hB] at hr
        simp [RelationType.toNat] at hr
  · rcases List.mem_map.mp hC with ⟨P, hP, hPt⟩
    rw [← hPt]
    exact hP

/-- Inside one block's walk, every `Next` triple comes from two consecutive
instructions of that block. -/
theorem next_consecutive_in_block {t : Triplet} :
    ∀ l : List Instruction, t ∈ blockInstTriplets l → t.Relation = 1 →
      ∃ pre I J post, l = pre ++ I :: J :: post ∧
        t.Head = I.opcode ∧ t.Tail = J.opcode := by
  intro l
  induction l with
  | nil => intro ht _; simp [blockInstTriplets] at ht
  | cons I rest ih =>
    intro ht hr
    cases rest with
    | nil =>
      rcases relation_one_of_mem_instTriplets
        (show t ∈ instTriplets I none from ht) hr with ⟨J, hJ, _⟩
      exact absurd hJ (by simp)
    | cons J rest2 =>
      rcases List.mem_append.mp
        (show t ∈ instTriplets I (some J) ++ blockInstTriplets (J :: rest2) from ht)
        with h1 | h2
      · rcases relation_one_of_mem_instTriplets h1 hr with ⟨J2, hJ2, hh, htl⟩
        cases hJ2
        exact ⟨[], I, J, rest2, rfl, hh, htl⟩
      · rcases ih h2 hr with ⟨pre, I2, J2, post, heq, hh, htl⟩
        exact ⟨I :: pre, I2, J2, post, by rw [heq]; rfl, hh, htl⟩

/-- Inside one block's walk, every `ArgOf` triple's head is an operand of
some instruction of that block. -/
theorem arg_head_in_block {t : Triplet} :
    ∀ l : List Instruction, t ∈ blockInstTriplets l → t.Relation = 2 →
      ∃ I ∈ l, t.Head ∈ I.operands := by
  intro l
  induction l with
  | nil => intro ht _; simp [blockInstTriplets] at ht
  | cons I rest ih =>
    intro ht hr
    cases rest with
    | nil =>
      exact ⟨I, by simp,
        relation_two_of_mem_instTriplets (show t ∈ instTriplets I none from ht) hr⟩
    | cons J rest2 =>
      rcases List.mem_append.mp
        (show t ∈ instTriplets I (some J) ++ blockInstTriplets (J :: rest2) from ht)
        with h1 | h2
      · exact ⟨I, by simp, relation_two_of_mem_instTriplets h1 hr⟩
      · rcases ih h2 hr with ⟨I2, hI2, hHead⟩
        exact ⟨I2, by simp [hI2], hHead⟩

/-- Elementwise addition produces the common length of two equally long
vectors. -/
theorem length_eadd (a b : Embedding) :
    (eadd a b).length = min a.length b.length :=
  List.length_zipWith (fun x y => x + y) a b

/-- Scalar scaling keeps the length. -/
theorem length_escale (c : ℚ) (a : Embedding) :
    (escale c a).length = a.length :=
  List.length_map a (fun x => c * x)

/-- The zero embedding has its declared dimension. -/
theorem length_zeroEmb (d : Nat) : (zeroEmb d).length = d :=
  List.length_replicate d 0

/-- Looking a list up with a default of the right length gives the right
length. -/
theorem length_getD (n : Nat) :
    ∀ (l : List Embedding) (i : Nat) (d : Embedding),
      (∀ e ∈ l, e.length = n) → d.length = n → (l.getD i d).length = n := by
  intro l
  induction l with
  | nil => intro i d _ hd; simpa [List.getD] using hd
  | cons a l ih =>
    intro i d hl hd
    cases i with
    | zero => simpa using hl a (by simp)
    | succ i =>
      simpa [List.getD_cons_succ] using ih i d (fun e he => hl e (by simp [he])) hd

/-- On a well-formed vocabulary every entity lookup has the declared
dimension. -/
theorem length_lookup (V : Vocabulary) (hwf : V.wf) (i : Nat) :
    (V.lookup i).length = V.dim :=
  length_getD V.dim V.table i (zeroEmb V.dim) hwf (length_zeroEmb V.dim)

/-- A fold of elementwise additions of `n`-length vectors over an
`n`-length accumulator stays `n`-length. -/
theorem length_foldl_eadd {α : Type} (n : Nat) (fn : α → Embedding)
    (l : List α) (hf : ∀ x ∈ l, (fn x).length = n) :
    ∀ acc : Embedding, acc.length = n →
      (l.foldl (fun a x => eadd a (fn x)) acc).length = n := by
  induction l with
  | nil => intro acc h; exact h
  | cons x xs ih =>
    intro acc h
    exact ih (fun y hy => hf y (by simp [hy])) (eadd acc (fn x))
      (by rw [length_eadd, h, hf x (by simp)]; exact Nat.min_self n)

/-- Adding two vectors to an accumulator in either order gives the same
vector. -/
theorem eadd_right_comm (a u v : Embedding) :
    eadd (eadd a u) v = eadd (eadd a v) u := by
  induction a generalizing u v with
  | nil => simp [eadd]
  | cons x a ih =>
    cases u with
    | nil => simp [eadd]
    | cons y u =>
      cases v with
      | nil => simp [eadd]
      | cons z v =>
        show (x + y + z) :: eadd (eadd a u) v = (x + z + y) :: eadd (eadd a v) u
        rw [add_right_comm, ih u v]

/-- A fold of elementwise additions is invariant under permutation of the
summed list: the aggregation is a structural sum, not position-weighted. -/
theorem foldl_eadd_perm {α : Type} (fn : α → Embedding) {l₁ l₂ : List α}
    (h : l₁.Perm l₂) :
    ∀ acc : Embedding,
      l₁.foldl (fun a x => eadd a (fn x)) acc
        = l₂.foldl (fun a x => eadd a (fn x)) acc := by
  induction h with
  | nil => intro acc; rfl
  | cons x h ih => intro acc; simp only [List.foldl_cons]; exact ih _
  | swap x y l =>
    intro acc
    simp only [List.foldl_cons]
    rw [eadd_right_comm]
  | trans h1 h2 ih1 ih2 => intro acc; exact (ih1 acc).trans (ih2 acc)

/-- Claim C3: for every module and every single-function scope the
`MaxRelation` of the triplet result is 2, the fixed upper bound of the
three-kind relation domain; and on a module with no operands anywhere the
walk emits zero `ArgOf` triples while `MaxRelation` is still 2. -/
theorem maxRelationIsDomainBound (m : Module) (f : Func) :
    (getTriplets m).MaxRelation = 2 ∧ (getTripletsF f).MaxRelation = 2 ∧
    ((∀ g ∈ m.funcs, ∀ b ∈ g.blocks, ∀ I ∈ b.insts, I.operands = []) →
      ∀ t ∈ (getTriplets m).Triplets,
        t.Relation ≠ RelationType.ArgRelation.toNat) := by
  refine ⟨rfl, rfl, ?_⟩
  intro hno t ht hr
  simp only [getTriplets, moduleTriplets] at ht
  rcases List.mem_flatMap.mp ht with ⟨g, hg, htf⟩
  simp only [funcTriplets] at htf
  rcases List.mem_flatMap.mp htf with ⟨b, hb, htb⟩
  rcases arg_head_in_block b.insts htb hr with ⟨I, hI, hHead⟩
  rw [hno g hg b hb I hI] at hHead
  simp at hHead

/-- Claim C3 at a concrete input: the operand-free module really emits no
`ArgOf` triple and still reports `MaxRelation = 2`. -/
theorem maxRelationIsDomainBound_witness :
    (getTriplets noOperandModule).MaxRelation = 2 ∧
    (getTripletsF sampleFunc).MaxRelation = 2 ∧
    ∀ t ∈ (getTriplets noOperandModule).Triplets,
      t.Relation ≠ RelationType.ArgRelation.toNat := by
  rcases maxRelationIsDomainBound noOperandModule sampleFunc with ⟨h1, h2, h3⟩
  exact ⟨h1, h2, h3 (by decide)⟩

/-- Claim C4: every `Next` triple of the walk relates the opcodes of two
consecutive instructions of one block of one function — no `Next` triple
crosses a block boundary. -/
theorem nextTripleWithinBlock (m : Module) (t : Triplet)
    (ht : t ∈ (getTriplets m).Triplets)
    (hr : t.Relation = RelationType.NextRelation.toNat) :
    ∃ f ∈ m.funcs, ∃ b ∈ f.blocks, ∃ pre I J post,
      b.insts = pre ++ I :: J :: post ∧
      t.Head = I.opcode ∧ t.Tail = J.opcode := by
  simp only [getTriplets, moduleTriplets] at ht
  rcases List.mem_flatMap.mp ht with ⟨f, hf, htf⟩
  simp only [funcTriplets] at htf
  rcases List.mem_flatMap.mp htf with ⟨b, hb, htb⟩
  rcases next_consecutive_in_block b.insts htb hr with ⟨pre, I, J, post, heq, hh, htl⟩
  exact ⟨f, hf, b, hb, pre, I, J, post, heq, hh, htl⟩

/-- Claim C4 at a concrete input: the sample module's `Next` triple
(add opcode 10 to ret opcode 11) comes from two consecutive instructions of
one block. -/
theorem nextTripleWithinBlock_witness :
    ∃ f ∈ sampleModule.funcs, ∃ b ∈ f.blocks, ∃ pre I J post,
      b.insts = pre ++ I :: J :: post ∧
      (⟨10, 11, 1⟩ : Triplet).Head = I.opcode ∧
      (⟨10, 11, 1⟩ : Triplet).Tail = J.opcode :=
  nextTripleWithinBlock sampleModule ⟨10, 11, 1⟩ (by decide) (by decide)

/-- Claim C7: under a fully initialized well-formed vocabulary, every
embedding any level produces — instruction, block, function, and the
binding-level result lists built from them — has length exactly the
vocabulary's declared dimension. -/
theorem embeddingsHaveVocabDimension (V : Vocabulary) (W : Weights)
    (hwf : V.wf) :
    (∀ I, (embedInstruction V W I).length = V.dim) ∧
    (∀ b, (embedBlock V W b).length = V.dim) ∧
    (∀ f, (embedFunction V W f).length = V.dim) ∧
    (∀ f, ∀ p ∈ getMBBEmbeddings V W f, p.2.length = V.dim) ∧
    (∀ f, ∀ p ∈ getMInstEmbeddings V W f, p.2.length = V.dim) ∧
    (∀ m, ∀ p ∈ getFunctionEmbeddings V W m, p.2.2.length = V.dim) := by
  have hI : ∀ I, (embedInstruction V W I).length = V.dim := by
    intro I
    unfold embedInstruction
    refine length_foldl_eadd V.dim _ I.operands (fun P _ => ?_) _ ?_
    · rw [length_escale]; exact length_lookup V hwf P
    · cases hres : I.resultType with
      | none => simp [hres, length_escale, length_lookup V hwf]
      | some T =>
        simp [hres, length_eadd, length_escale, length_lookup V hwf]
  have hB : ∀ b, (embedBlock V W b).length = V.dim := by
    intro b
    exact length_foldl_eadd V.dim _ b.insts (fun I _ => hI I) _ (length_zeroEmb V.dim)
  have hF : ∀ f, (embedFunction V W f).length = V.dim := by
    intro f
    exact length_foldl_eadd V.dim _ f.blocks (fun b _ => hB b) _ (length_zeroEmb V.dim)
  refine ⟨hI, hB, hF, ?_, ?_, ?_⟩
  · intro f p hp
    rcases List.mem_map.mp hp with ⟨b, _, hb⟩
    rw [← hb]
    exact hB b
  · intro f p hp
    rcases List.mem_map.mp hp with ⟨I, _, hI2⟩
    rw [← hI2]
    exact hI I
  · intro m p hp
    rcases List.mem_map.mp hp with ⟨f, _, hf⟩
    rw [← hf]
    exact hF f

/-- Claim C7 at a concrete input: the sample vocabulary is well-formed, so
every embedding produced under it is two-dimensional. -/
theorem embeddingsHaveVocabDimension_witness :
    (∀ I, (embedInstruction sampleVocab sampleWeights I).length = sampleVocab.dim) ∧
    (∀ b, (embedBlock sampleVocab sampleWeights b).length = sampleVocab.dim) ∧
    (∀ f, (embedFunction sampleVocab sampleWeights f).length = sampleVocab.dim) ∧
    (∀ f, ∀ p ∈ getMBBEmbeddings sampleVocab sampleWeights f,
      p.2.length = sampleVocab.dim) ∧
    (∀ f, ∀ p ∈ getMInstEmbeddings sampleVocab sampleWeights f,
      p.2.length = sampleVocab.dim) ∧
    (∀ m, ∀ p ∈ getFunctionEmbeddings sampleVocab sampleWeights m,
      p.2.2.length = sampleVocab.dim) :=
  embeddingsHaveVocabDimension sampleVocab sampleWeights
    (by intro e he; fin_cases he <;> rfl)

/-- Claim C8: two functions whose block lists are permutations of each
other — identical block contents, different layout order — get identical
function embeddings: each level is a structural sum over the level below,
not a position-weighted combination. -/
theorem functionEmbeddingBlockOrderInvariant (V : Vocabulary) (W : Weights)
    (f h : Func) (hperm : f.blocks.Perm h.blocks) :
    embedFunction V W f = embedFunction V W h :=
  foldl_eadd_perm (embedBlock V W) hperm (zeroEmb V.dim)

/-- Claim C8 at a concrete input: swapping the two blocks of the sample
function leaves its embedding unchanged. -/
theorem functionEmbeddingBlockOrderInvariant_witness :
    embedFunction sampleVocab sampleWeights sampleFunc
      = embedFunction sampleVocab sampleWeights sampleFuncSwapped :=
  functionEmbeddingBlockOrderInvariant sampleVocab sampleWeights
    sampleFunc sampleFuncSwapped
    (List.Perm.swap sampleExitBlock sampleEntryBlock [])

/-- Claim C1: on a lowered-representation session, every call to
`getFuncVectorMap`, `generateMBBEmbeddings` or `generateMInstEmbeddings` —
any function name, any vocabulary path — fails with the unconditional
not-implemented error (an `UnsupportedCapability`) and changes no state,
while `generateTriplets` and `getEntityMappings` are not gated and succeed
whenever layout initialization succeeds. -/
theorem mirEmbeddingEntryPointsGated (env : MIREnv) (g : GlobalState)
    (t : PyMIR2VecTool) (fn vp : String) (hlay : env.layoutInitOk = true) :
    (PyMIR2VecTool.getFuncVectorMap env g t vp).1 = .error .NotImplemented ∧
    (PyMIR2VecTool.getFuncVectorMap env g t vp).2 = g ∧
    (PyMIR2VecTool.generateMBBEmbeddings env g t fn vp).1 = .error .NotImplemented ∧
    (PyMIR2VecTool.generateMBBEmbeddings env g t fn vp).2 = g ∧
    (PyMIR2VecTool.generateMInstEmbeddings env g t fn vp).1 = .error .NotImplemented ∧
    (PyMIR2VecTool.generateMInstEmbeddings env g t fn vp).2 = g ∧
    Err.category .NotImplemented = ErrCategory.UnsupportedCapability ∧
    PyMIR2VecTool.generateTriplets env t = .ok (getTriplets env.mirModule) ∧
    PyMIR2VecTool.getEntityMappings env t = .ok env.entityNames := by
  refine ⟨rfl, rfl, rfl, rfl, rfl, rfl, rfl, ?_, ?_⟩
  · simp [PyMIR2VecTool.generateTriplets, hlay]
  · simp [PyMIR2VecTool.getEntityMappings, hlay]

/-- Claim C1 at a concrete input: on the all-successful sample environment
the three embedding entry points fail not-implemented while the triplet and
entity-mapping entry points succeed. -/
theorem mirEmbeddingEntryPointsGated_witness :
    (PyMIR2VecTool.getFuncVectorMap sampleMIREnv g0 t0 "v").1
        = .error .NotImplemented ∧
    (PyMIR2VecTool.getFuncVectorMap sampleMIREnv g0 t0 "v").2 = g0 ∧
    (PyMIR2VecTool.generateMBBEmbeddings sampleMIREnv g0 t0 "f" "v").1
        = .error .NotImplemented ∧
    (PyMIR2VecTool.generateMBBEmbeddings sampleMIREnv g0 t0 "f" "v").2 = g0 ∧
    (PyMIR2VecTool.generateMInstEmbeddings sampleMIREnv g0 t0 "f" "v").1
        = .error .NotImplemented ∧
    (PyMIR2VecTool.generateMInstEmbeddings sampleMIREnv g0 t0 "f" "v").2 = g0 ∧
    Err.category .NotImplemented = ErrCategory.UnsupportedCapability ∧
    PyMIR2VecTool.generateTriplets sampleMIREnv t0
        = .ok (getTriplets sampleMIREnv.mirModule) ∧
    PyMIR2VecTool.getEntityMappings sampleMIREnv t0
        = .ok sampleMIREnv.entityNames :=
  mirEmbeddingEntryPointsGated sampleMIREnv g0 t0 "f" "v" rfl

/-- Claim C2 refuted at a concrete input: a portable-IR session request with
mode `fa` passes the constructor's mode check and — with every collaborator
succeeding — constructs the session, instead of failing with an
unsupported-mode error. -/
theorem faModePortableAccepted_cex :
    (pyIR2VecToolInit sampleIREnv g0 "test.ll" "fa" "vocab.json").1 = .ok () := by
  rfl

/-- Claim C2 as amended: a mode-`fa` session-construction request fails with
the unsupported-mode error on the lowered-representation path (which accepts
only `sym`), while on the portable-IR path `fa` is accepted by the mode
check and construction succeeds whenever the file, parse and vocabulary
steps succeed. -/
theorem faModeSupport_amended (envM : MIREnv) (envI : IREnv) (g : GlobalState)
    (fnM fnI vo : String) (hfileM : envM.fileValid fnM = true)
    (hfileI : envI.fileValid fnI = true) (hparse : envI.parseOk fnI = true)
    (hvo : vo ≠ "") (hinit : envI.vocabInitOk vo = true) :
    pyMIR2VecToolInit envM fnM "fa"
        = .error (.InvalidMode "Invalid mode. Only sym mode supported.") ∧
    Err.category (.InvalidMode "Invalid mode. Only sym mode supported.")
        = ErrCategory.ConfigurationError ∧
    (pyIR2VecToolInit envI g fnI "fa" vo).1 = .ok () := by
  refine ⟨?_, rfl, ?_⟩
  · simp [pyMIR2VecToolInit, hfileM]
  · simp [pyIR2VecToolInit, hfileI, hparse, hvo, hinit, setIR2VecVocabPath]

/-- Claim C2's amended statement at a concrete input. -/
theorem faModeSupport_amended_witness :
    pyMIR2VecToolInit sampleMIREnv "test.mir" "fa"
        = .error (.InvalidMode "Invalid mode. Only sym mode supported.") ∧
    Err.category (.InvalidMode "Invalid mode. Only sym mode supported.")
        = ErrCategory.ConfigurationError ∧
    (pyIR2VecToolInit sampleIREnv g0 "test.ll" "fa" "vocab.json").1 = .ok () :=
  faModeSupport_amended sampleMIREnv sampleIREnv g0 "test.mir" "test.ll"
    "vocab.json" rfl rfl rfl (by decide) rfl

/-- Claim C5: a portable-IR session-initialization request whose vocabulary
override is empty fails with the empty-vocabulary-path error — a
configuration error — leaving the process-wide configuration unchanged and
having performed no vocabulary work (no path set, no initialization run). -/
theorem emptyVocabPathRejectedEarly (env : IREnv) (g : GlobalState)
    (filename mode : String) (hfile : env.fileValid filename = true)
    (hmode : mode = "sym" ∨ mode = "fa") (hparse : env.parseOk filename = true) :
    (pyIR2VecToolInit env g filename mode "").1 = .error .EmptyVocabPath ∧
    Err.category .EmptyVocabPath = ErrCategory.ConfigurationError ∧
    (pyIR2VecToolInit env g filename mode "").2.1 = g ∧
    ∀ e ∈ (pyIR2VecToolInit env g filename mode "").2.2,
      e.isVocabWork = false := by
  have hrun : pyIR2VecToolInit env g filename mode ""
      = (.error .EmptyVocabPath, g, [.parseModule, .createTool]) := by
    rcases hmode with rfl | rfl <;>
      simp [pyIR2VecToolInit, hfile, hparse]
  rw [hrun]
  refine ⟨rfl, rfl, rfl, ?_⟩
  intro e he
  fin_cases he <;> rfl

/-- Claim C5 at a concrete input. -/
theorem emptyVocabPathRejectedEarly_witness :
    (pyIR2VecToolInit sampleIREnv g0 "test.ll" "sym" "").1
        = .error .EmptyVocabPath ∧
    Err.category .EmptyVocabPath = ErrCategory.ConfigurationError ∧
    (pyIR2VecToolInit sampleIREnv g0 "test.ll" "sym" "").2.1 = g0 ∧
    ∀ e ∈ (pyIR2VecToolInit sampleIREnv g0 "test.ll" "sym" "").2.2,
      e.isVocabWork = false :=
  emptyVocabPathRejectedEarly sampleIREnv g0 "test.ll" "sym" rfl (Or.inl rfl) rfl

/-- Claim C6 refuted at a concrete input: on a lowered session, requesting
block embeddings for the absent function name `absent` fails with the
not-implemented error — an `UnsupportedCapability`, not an `InputError`
identifying the name — because the unconditional gate fires before the
function lookup ever runs. -/
theorem absentFunctionGatedFirst_cex :
    sampleMIREnv.getFunction "absent" = none ∧
    (PyMIR2VecTool.generateMBBEmbeddings sampleMIREnv g0 t0 "absent" "v").1
        = .error .NotImplemented ∧
    Err.category .NotImplemented ≠ ErrCategory.InputError ∧
    errMessage .NotImplemented = "Function Not Implemented" := by
  refine ⟨?_, rfl, by decide, rfl⟩
  rfl

/-- A lowered-IR environment like the sample one except that the function
`g` is present with a body but was never lowered: `getFunction` knows it,
the machine-function store does not. -/
def sampleMIREnvNoMF : MIREnv :=
  { sampleMIREnv with
    getFunction := fun n => if n = "f" ∨ n = "g" then some false else none
    machineFunc := fun n => if n = "f" then some sampleFunc else none }

/-- Claim C6 as amended: the lowered-representation embedding entry points
fail with the not-implemented gate before the lookup runs and leave all
state unchanged; the function-lookup step itself (`getMachineFunction`)
fails on an absent or bodyless name with an `InputError` whose message
names the function, and on a defined name without a lowered machine form
with an `InputError` naming it as well. -/
theorem absentFunctionLookup_amended (env : MIREnv) (g : GlobalState)
    (t : PyMIR2VecTool) (name vp : String) :
    ((env.getFunction name = none ∨ env.getFunction name = some true) →
      getMachineFunction env name = .error (.FunctionNotFound name)) ∧
    (env.getFunction name = some false → env.machineFunc name = none →
      getMachineFunction env name = .error (.NoMachineFunction name)) ∧
    Err.category (.FunctionNotFound name) = ErrCategory.InputError ∧
    Err.category (.NoMachineFunction name) = ErrCategory.InputError ∧
    errMessage (.FunctionNotFound name)
        = "Function not found or is a declaration: " ++ name ∧
    errMessage (.NoMachineFunction name)
        = "No MachineFunction found for: " ++ name ∧
    (PyMIR2VecTool.generateMBBEmbeddings env g t name vp).1
        = .error .NotImplemented ∧
    (PyMIR2VecTool.generateMBBEmbeddings env g t name vp).2 = g ∧
    (PyMIR2VecTool.generateMInstEmbeddings env g t name vp).1
        = .error .NotImplemented ∧
    (PyMIR2VecTool.generateMInstEmbeddings env g t name vp).2 = g := by
  refine ⟨?_, ?_, rfl, rfl, rfl, rfl, rfl, rfl, rfl, rfl⟩
  · intro habs
    rcases habs with h | h <;> simp [getMachineFunction, h]
  · intro hdef hmf
    simp [getMachineFunction, hdef, hmf]

/-- Claim C6's amended statement at concrete inputs, both lookup failures
exercised non-vacuously: the name `absent` is missing from the sample
environment and the lookup fails naming it; the name `g` is defined but
never lowered in `sampleMIREnvNoMF` and the lookup fails naming it; the
gated entry points fail not-implemented with the state unchanged. -/
theorem absentFunctionLookup_amended_witness :
    getMachineFunction sampleMIREnv "absent"
        = .error (.FunctionNotFound "absent") ∧
    getMachineFunction sampleMIREnvNoMF "g"
        = .error (.NoMachineFunction "g") ∧
    Err.category (.FunctionNotFound "absent") = ErrCategory.InputError ∧
    Err.category (.NoMachineFunction "g") = ErrCategory.InputError ∧
    errMessage (.FunctionNotFound "absent")
        = "Function not found or is a declaration: " ++ "absent" ∧
    errMessage (.NoMachineFunction "g")
        = "No MachineFunction found for: " ++ "g" ∧
    (PyMIR2VecTool.generateMBBEmbeddings sampleMIREnv g0 t0 "absent" "v").1
        = .error .NotImplemented ∧
    (PyMIR2VecTool.generateMBBEmbeddings sampleMIREnv g0 t0 "absent" "v").2 = g0 ∧
    (PyMIR2VecTool.generateMInstEmbeddings sampleMIREnvNoMF g0 t0 "g" "v").1
        = .error .NotImplemented ∧
    (PyMIR2VecTool.generateMInstEmbeddings sampleMIREnvNoMF g0 t0 "g" "v").2
        = g0 := by
  obtain ⟨habsent, -, hcat1, -, hmsg1, -, hbb1, hbb2, -, -⟩ :=
    absentFunctionLookup_amended sampleMIREnv g0 t0 "absent" "v"
  obtain ⟨-, hnomf, -, hcat2, -, hmsg2, -, -, hmi1, hmi2⟩ :=
    absentFunctionLookup_amended sampleMIREnvNoMF g0 t0 "g" "v"
  exact ⟨habsent (Or.inl (by decide)), hnomf (by decide) (by decide),
    hcat1, hcat2, hmsg1, hmsg2, hbb1, hbb2, hmi1, hmi2⟩

/-- Claim C9: the vocabulary path is process-wide mutable configuration —
after any sequence of set-path calls the configuration holds exactly the
most recently set path; the binding-level initialization helper sets the
path it was given immediately before initializing, so its outcome depends
only on that path (not on any previously stored one) and afterwards the
configuration holds it. -/
theorem vocabPathProcessWideConfig (g g2 : GlobalState) (paths : List String)
    (p q : String) (env : MIREnv) :
    ((paths ++ [p]).foldl setMIR2VecVocabPath g).mirVocabPath = p ∧
    (initializeMIR2VecVocabularyForEmb env g q).2.mirVocabPath = q ∧
    (initializeMIR2VecVocabularyForEmb env g q).1
        = (initializeMIR2VecVocabularyForEmb env g2 q).1 ∧
    ((initializeMIR2VecVocabularyForEmb env g q).1 = .ok ()
        ↔ env.fullInitOk q = true) := by
  refine ⟨?_, ?_, ?_, ?_⟩
  · rw [List.foldl_append]
    rfl
  · unfold initializeMIR2VecVocabularyForEmb setMIR2VecVocabPath
    cases h : env.fullInitOk q <;> simp [h]
  · unfold initializeMIR2VecVocabularyForEmb setMIR2VecVocabPath
    cases h : env.fullInitOk q <;> simp [h]
  · unfold initializeMIR2VecVocabularyForEmb setMIR2VecVocabPath
    cases h : env.fullInitOk q <;> simp [h]

/-- Claim C10: every call of the portable-IR module-level `initEmbedding`
entry point that leaves `vocab_override` at its default fails: the default
is the empty string and the session constructor rejects an empty vocabulary
path unconditionally, so the documented optional default is never usable. -/
theorem initEmbeddingDefaultVocabAlwaysFails (env : IREnv) (g : GlobalState)
    (filename mode : String) :
    isErr (pyIR2VecToolInit env g filename mode initEmbeddingDefaultVocab).1
        = true ∧
    initEmbeddingDefaultVocab = "" := by
  refine ⟨?_, rfl⟩
  unfold pyIR2VecToolInit initEmbeddingDefaultVocab
  split
  · rfl
  · split
    · rfl
    · split
      · rfl
      · split
        · rfl
        · simp_all

end IR2Vec
